import Mathlib

/-!
A shallow embedding of the TeaTime tee-time booking automation
(src/functions/booking.py, src/functions/auth.py, src/utils/date_utils.py)
together with proofs about its time parsing, candidate ranking, date
window calculation, login outcome, booking executor and retry
orchestration.

Strings are modelled as lists of characters; Python integers as Nat/Int;
fallible steps as Option/Except; the browser page as explicit data
supplying the results of the DOM queries the code performs.
-/

namespace TeaTime

/-! ## Character helpers (ASCII-level model of the Python string ops) -/

/-- Python str.strip() whitespace set (space, tab, newline, cr, vt, ff). -/
def py_isspace (c : Char) : Bool :=
  c = ' ' ∨ c = '\t' ∨ c = '\n' ∨ c = '\r' ∨ c = '\x0b' ∨ c = '\x0c'

/-- Model of Python str.strip(). -/
def py_strip (s : List Char) : List Char :=
  ((s.dropWhile py_isspace).reverse.dropWhile py_isspace).reverse

/-- Numeric value of an ASCII digit character. -/
def digit_val (c : Char) : Nat := c.toNat - 48

/-- ASCII digit test (the `\d` of the strptime patterns on the canonical inputs). -/
def is_ascii_digit (c : Char) : Bool := 48 ≤ c.toNat ∧ c.toNat ≤ 57

/-- Case-insensitive comparison of a character against an uppercase letter,
    as done by the IGNORECASE-compiled strptime regexes. -/
def upper_eq (c u : Char) : Bool := c = u ∨ c.toNat = u.toNat + 32

/-- Python str.upper() restricted to ASCII letters (all inputs it is applied to). -/
def ascii_upper (c : Char) : Char :=
  if 97 ≤ c.toNat ∧ c.toNat ≤ 122 then Char.ofNat (c.toNat - 32) else c

/-- Python str.lower() restricted to ASCII letters. -/
def ascii_lower (c : Char) : Char :=
  if 65 ≤ c.toNat ∧ c.toNat ≤ 90 then Char.ofNat (c.toNat + 32) else c

/-! ## strptime field regexes

CPython's `_strptime` compiles `%I` to `1[0-2]|0[1-9]|[1-9]`, `%M` to
`[0-5]\d|\d`, `%H` to `2[0-3]|[0-1]\d|\d` and `%p` to a case-insensitive
`AM|PM`, anchors the match at the start and requires the whole input to be
consumed.  Regex alternation tries the alternatives in order with
backtracking, so each field parser below returns the ordered list of its
possible (value, remaining-input) matches and the format parsers try the
continuation on each in turn. -/

/-- Two-character alternatives of `%I`: `1[0-2]` then `0[1-9]`. -/
def strptime_I2 : List Char → List (Nat × List Char)
  | c1 :: c2 :: rest =>
    if c1.toNat = 49 ∧ 48 ≤ c2.toNat ∧ c2.toNat ≤ 50 then
      [(10 + (c2.toNat - 48), rest)]
    else if c1.toNat = 48 ∧ 49 ≤ c2.toNat ∧ c2.toNat ≤ 57 then
      [(c2.toNat - 48, rest)]
    else []
  | _ => []

/-- One-character alternative of `%I`: `[1-9]`. -/
def strptime_I1 : List Char → List (Nat × List Char)
  | c :: rest => if 49 ≤ c.toNat ∧ c.toNat ≤ 57 then [(c.toNat - 48, rest)] else []
  | [] => []

/-- `%I` (12-hour hour field): ordered candidate matches. -/
def strptime_I (s : List Char) : List (Nat × List Char) :=
  strptime_I2 s ++ strptime_I1 s

/-- Two-character alternative of `%M`: `[0-5]\d`. -/
def strptime_M2 : List Char → List (Nat × List Char)
  | a :: b :: rest =>
    if (48 ≤ a.toNat ∧ a.toNat ≤ 53) ∧ is_ascii_digit b then
      [(10 * (a.toNat - 48) + (b.toNat - 48), rest)]
    else []
  | _ => []

/-- One-character alternative of `%M`: `\d`. -/
def strptime_M1 : List Char → List (Nat × List Char)
  | a :: rest => if is_ascii_digit a then [(a.toNat - 48, rest)] else []
  | [] => []

/-- `%M` (minute field): ordered candidate matches. -/
def strptime_M (s : List Char) : List (Nat × List Char) :=
  strptime_M2 s ++ strptime_M1 s

/-- Two-character alternatives of `%H`: `2[0-3]` then `[0-1]\d`. -/
def strptime_H2 : List Char → List (Nat × List Char)
  | a :: b :: rest =>
    if a.toNat = 50 ∧ 48 ≤ b.toNat ∧ b.toNat ≤ 51 then
      [(20 + (b.toNat - 48), rest)]
    else if (48 ≤ a.toNat ∧ a.toNat ≤ 49) ∧ is_ascii_digit b then
      [(10 * (a.toNat - 48) + (b.toNat - 48), rest)]
    else []
  | _ => []

/-- `%H` (24-hour hour field): ordered candidate matches. -/
def strptime_H (s : List Char) : List (Nat × List Char) :=
  strptime_H2 s ++ strptime_M1 s

/-- `%p` (AM/PM marker, case-insensitive); returns (is-pm, rest). -/
def strptime_p : List Char → Option (Bool × List Char)
  | a :: m :: rest =>
    if (upper_eq a 'A' ∨ upper_eq a 'P') ∧ upper_eq m 'M' then
      some (upper_eq a 'P', rest)
    else none
  | _ => none

/-- One-or-more whitespace (`\s+`, what a literal space in a strptime format
    compiles to); greedy, which is equivalent here since `%p` starts with a
    non-space character. -/
def ws1 : List Char → Option (List Char)
  | c :: rest => if py_isspace c then some (rest.dropWhile py_isspace) else none
  | [] => none

/-- CPython's %I/%p hour conversion: 12 AM is hour 0, 12 PM stays 12,
    other PM hours gain 12. -/
def hour12_to_24 (h : Nat) (pm : Bool) : Nat :=
  match pm with
  | true => if h = 12 then 12 else h + 12
  | false => if h = 12 then 0 else h

/-- First alternative (in order) on which the continuation succeeds:
    the backtracking of the regex alternations. -/
def first_some : List α → (α → Option β) → Option β
  | [], _ => none
  | a :: as, f =>
    match f a with
    | some b => some b
    | none => first_some as f

/-! ## The four formats tried by parse_time (booking.py lines 239-275) -/

/-- Continuation after `%I:%M` of `"%I:%M %p"`: whitespace, meridiem, end. -/
def after_M_sp (h : Nat) (mr : Nat × List Char) : Option Nat :=
  match ws1 mr.2 with
  | some r =>
    match strptime_p r with
    | some (pm, rest) =>
      if rest = [] then some (hour12_to_24 h pm * 60 + mr.1) else none
    | none => none
  | none => none

/-- Continuation after `%I` of `"%I:%M %p"`: literal colon then minutes. -/
def after_I_sp (hr : Nat × List Char) : Option Nat :=
  match hr.2 with
  | c :: r2 => if c = ':' then first_some (strptime_M r2) (after_M_sp hr.1) else none
  | [] => none

/-- strptime(s, "%I:%M %p") producing minutes since midnight. -/
def parse_I_M_sp_p (s : List Char) : Option Nat :=
  first_some (strptime_I s) after_I_sp

/-- Continuation after `%I:%M` of `"%I:%M%p"`: meridiem immediately, end. -/
def after_M_nsp (h : Nat) (mr : Nat × List Char) : Option Nat :=
  match strptime_p mr.2 with
  | some (pm, rest) =>
    if rest = [] then some (hour12_to_24 h pm * 60 + mr.1) else none
  | none => none

/-- Continuation after `%I` of `"%I:%M%p"`. -/
def after_I_nsp (hr : Nat × List Char) : Option Nat :=
  match hr.2 with
  | c :: r2 => if c = ':' then first_some (strptime_M r2) (after_M_nsp hr.1) else none
  | [] => none

/-- strptime(s, "%I:%M%p") producing minutes since midnight. -/
def parse_I_M_p (s : List Char) : Option Nat :=
  first_some (strptime_I s) after_I_nsp

/-- Continuation after `%H:%M`: end of input. -/
def after_H_M (h : Nat) (mr : Nat × List Char) : Option Nat :=
  if mr.2 = [] then some (h * 60 + mr.1) else none

/-- Continuation after `%H` of `"%H:%M"`. -/
def after_H_colon (hr : Nat × List Char) : Option Nat :=
  match hr.2 with
  | c :: r2 => if c = ':' then first_some (strptime_M r2) (after_H_M hr.1) else none
  | [] => none

/-- strptime(s, "%H:%M") producing minutes since midnight. -/
def parse_H_M (s : List Char) : Option Nat :=
  first_some (strptime_H s) after_H_colon

/-- The exact-case meridiem alternatives `(AM|PM|am|pm)` of the special
    normalization regex (booking.py line 265): case-SENSITIVE alternatives. -/
def meridiem_exact (p1 p2 : Char) : Bool :=
  (p1 = 'A' ∧ p2 = 'M') ∨ (p1 = 'P' ∧ p2 = 'M') ∨
  (p1 = 'a' ∧ p2 = 'm') ∨ (p1 = 'p' ∧ p2 = 'm')

/-- Full match of `^\d{1,2}\:\d{2}(AM|PM|am|pm)$`. -/
def stage4_match : List Char → Bool
  | a :: ':' :: x :: y :: p1 :: p2 :: [] =>
    is_ascii_digit a ∧ is_ascii_digit x ∧ is_ascii_digit y ∧ meridiem_exact p1 p2
  | a :: b :: ':' :: x :: y :: p1 :: p2 :: [] =>
    is_ascii_digit a ∧ is_ascii_digit b ∧ is_ascii_digit x ∧ is_ascii_digit y ∧
      meridiem_exact p1 p2
  | _ => false

/-- Normalization pass (booking.py lines 265-275): when the regex matches,
    rebuild `time_str[:-2] + " " + time_str[-2:].upper()` and retry the
    spaced 12-hour format. -/
def stage4_parse (s : List Char) : Option Nat :=
  if stage4_match s then
    parse_I_M_sp_p
      (s.take (s.length - 2) ++ ' ' :: (s.drop (s.length - 2)).map ascii_upper)
  else none

/-- Model of parse_time (booking.py lines 229-281): strip, then try the
    four formats in priority order; None when all fail. -/
def parse_time (s0 : List Char) : Option Nat :=
  match parse_I_M_sp_p (py_strip s0) with
  | some m => some m
  | none =>
    match parse_I_M_p (py_strip s0) with
    | some m => some m
    | none =>
      match parse_H_M (py_strip s0) with
      | some m => some m
      | none => stage4_parse (py_strip s0)

/-- Canonical 12-hour rendering "H:MM AM/PM" of a minutes-since-midnight
    value: hour without leading zero, two-digit minutes, a space before
    the meridiem. -/
def format12 (m : Nat) : List Char :=
  let h24 := m / 60
  let mm := m % 60
  let h12 := if h24 % 12 = 0 then 12 else h24 % 12
  let mer : List Char := if h24 < 12 then ['A', 'M'] else ['P', 'M']
  (if 10 ≤ h12 then [Nat.digitChar (h12 / 10), Nat.digitChar (h12 % 10)]
   else [Nat.digitChar h12]) ++ ':' :: Nat.digitChar (mm / 10) :: Nat.digitChar (mm % 10) :: ' ' :: mer

example : parse_time "2:00 PM".data = some 840 := by decide
example : parse_time "2:00PM".data = some 840 := by decide
example : parse_time "14:00".data = some 840 := by decide
example : parse_time "not a time".data = none := by decide
example : parse_time "12:00 AM".data = some 0 := by decide
example : parse_time (format12 779) = some 779 := by decide

/-! ## Date calculator (src/utils/date_utils.py)

Dates are modelled as absolute day indices (Nat), with the convention that
day index d falls on weekday d % 7 in Python's numbering (0 = Monday,
6 = Sunday).  datetime arithmetic with whole-day timedeltas preserves the
time of day, so (next_target_date - today).days equals the added offset. -/

/-- The days-until-target computation of calculate_next_available_date
    (date_utils.py lines 43-49): (target_weekday - today.weekday()) % 7,
    with 0 promoted to 7 (today is never the target). -/
def days_until_target (target_weekday today_weekday : Nat) : Nat :=
  let d : Int := (Int.ofNat target_weekday - Int.ofNat today_weekday) % 7
  if d = 0 then 7 else d.toNat

/-- Model of calculate_next_available_date (date_utils.py lines 25-62):
    the next date on the target weekday, or none when it falls outside the
    booking window.  The date is returned as a day index rather than a
    formatted YYYY-MM-DD string. -/
def calculate_next_available_date (target_weekday max_days_ahead today : Nat) :
    Option Nat :=
  if days_until_target target_weekday (today % 7) > max_days_ahead then none
  else some (today + days_until_target target_weekday (today % 7))

theorem days_until_target_self (w : Nat) : days_until_target w w = 7 := by
  simp [days_until_target]

/-! ## Candidate slots and ranking (booking.py, find_tee_time_slots_on_tee_sheet)

The DOM-scanning strategies (booking.py lines 616-831) each extract, per
discovered element, a display-time string and an opaque element handle;
the raw extraction order is the discovery order.  The slot dict appended
for each candidate (lines 661-667 and the analogous branches) parses the
time and assigns the distance `abs(minutes - target_minutes) if minutes
else 9999` — note the Python truthiness test on `minutes`. -/

/-- A candidate as extracted from the page, before distance assignment. -/
structure RawSlot where
  element : Nat
  time : List Char
  deriving DecidableEq

/-- The slot dict built for each extracted candidate. -/
structure Slot where
  element : Nat
  time : List Char
  minutes : Option Nat
  distance : Nat
  deriving DecidableEq

/-- Construction of the slot dict (booking.py lines 661-667): the distance
    expression is `abs(minutes - target_minutes) if minutes else 9999`, in
    which both None and the integer 0 are falsy. -/
def mk_slot (target_minutes : Nat) (r : RawSlot) : Slot :=
  let minutes := parse_time r.time
  { element := r.element
    time := r.time
    minutes := minutes
    distance :=
      match minutes with
      | some m => if m = 0 then 9999 else ((m : Int) - (target_minutes : Int)).natAbs
      | none => 9999 }

/-- Model of `available_slots.sort(key=lambda x: x['distance'])` (booking.py
    line 835): Python's list.sort is a stable ascending sort by the key, so
    it is modelled by stable insertion by distance (the result of a stable
    key sort is unique, independent of the algorithm). -/
def sort_insert (x : Slot) : List Slot → List Slot
  | [] => [x]
  | y :: ys => if x.distance ≤ y.distance then x :: y :: ys else y :: sort_insert x ys

/-- Stable ascending sort by distance; see sort_insert. -/
def sort_by_distance : List Slot → List Slot
  | [] => []
  | x :: xs => sort_insert x (sort_by_distance xs)

/-- Exceptions that the slot-extraction try-blocks can raise (a detached
    element handle, a failed page evaluation, ...). -/
inductive ScanExc
  | element_detached
  | evaluation_failed
  deriving DecidableEq

/-- Model of find_tee_time_slots_on_tee_sheet (booking.py lines 536-848):
    the extraction strategies run inside a try and deliver either the raw
    candidates in discovery order or an exception.  Candidates get their
    slot dict and are stably sorted by distance (lines 833-840); both the
    no-candidate outcome (line 843) and the exception handler
    (lines 845-848) return the empty list. -/
def find_tee_time_slots_on_tee_sheet (target_minutes : Nat)
    (extraction : Except ScanExc (List RawSlot)) : List Slot :=
  match extraction with
  | .ok raws => sort_by_distance (raws.map (mk_slot target_minutes))
  | .error _ => []

/-- Model of search_for_available_slots (booking.py lines 283-397) at the
    granularity claim C9 needs: the body either produces its result (the
    closest slot, or None when nothing matched) or raises, and the handler
    (lines 394-397) turns the exception into None. -/
def search_for_available_slots (body : Except ScanExc (Option Slot)) : Option Slot :=
  match body with
  | .ok r => r
  | .error _ => none

/-! ### Sortedness, permutation and stability of the model sort -/

theorem sort_insert_perm (x : Slot) (l : List Slot) :
    (sort_insert x l).Perm (x :: l) := by
  induction l with
  | nil => simp [sort_insert]
  | cons y ys ih =>
    simp only [sort_insert]
    split
    · exact List.Perm.refl _
    · exact (ih.cons y).trans (List.Perm.swap x y ys)

theorem sort_by_distance_perm (l : List Slot) :
    (sort_by_distance l).Perm l := by
  induction l with
  | nil => simp [sort_by_distance]
  | cons x xs ih =>
    exact (sort_insert_perm x (sort_by_distance xs)).trans (ih.cons x)

theorem sort_insert_pairwise (x : Slot) (l : List Slot)
    (hl : l.Pairwise (fun a b => a.distance ≤ b.distance)) :
    (sort_insert x l).Pairwise (fun a b => a.distance ≤ b.distance) := by
  induction l with
  | nil => simp [sort_insert]
  | cons y ys ih =>
    rcases List.pairwise_cons.mp hl with ⟨hy, hys⟩
    simp only [sort_insert]
    split
    · rename_i hxy
      refine List.pairwise_cons.mpr ⟨?_, hl⟩
      intro b hb
      rcases List.mem_cons.mp hb with hb | hb
      · subst hb; exact hxy
      · exact le_trans hxy (hy _ hb)
    · rename_i hxy
      refine List.pairwise_cons.mpr ⟨?_, ih hys⟩
      intro b hb
      have hb' := (sort_insert_perm x ys).mem_iff.mp hb
      rcases List.mem_cons.mp hb' with hb'' | hb''
      · subst hb''; omega
      · exact hy _ hb''

theorem sort_by_distance_pairwise (l : List Slot) :
    (sort_by_distance l).Pairwise (fun a b => a.distance ≤ b.distance) := by
  induction l with
  | nil => simp [sort_by_distance]
  | cons x xs ih => exact sort_insert_pairwise x _ ih

theorem sort_insert_filter (x : Slot) (l : List Slot) (d : Nat)
    (hl : l.Pairwise (fun a b => a.distance ≤ b.distance)) :
    (sort_insert x l).filter (fun s => s.distance = d) =
      if x.distance = d then x :: l.filter (fun s => s.distance = d)
      else l.filter (fun s => s.distance = d) := by
  induction l with
  | nil =>
    by_cases hxd : x.distance = d <;> simp [sort_insert, List.filter_cons, hxd]
  | cons y ys ih =>
    rcases List.pairwise_cons.mp hl with ⟨hy, hys⟩
    simp only [sort_insert]
    split
    · rename_i hxy
      by_cases hxd : x.distance = d <;> simp [List.filter_cons, hxd]
    · rename_i hxy
      by_cases hyd : y.distance = d
      · by_cases hxd : x.distance = d
        · exfalso; omega
        · simp [List.filter_cons, hyd, hxd, ih hys]
      · simp [List.filter_cons, hyd, ih hys]

/-- Stability of the model sort: for every key value, the subsequence of
    elements carrying that key is unchanged — equal-distance candidates
    keep their discovery order. -/
theorem sort_by_distance_filter (l : List Slot) (d : Nat) :
    (sort_by_distance l).filter (fun s => s.distance = d) =
      l.filter (fun s => s.distance = d) := by
  induction l with
  | nil => simp [sort_by_distance]
  | cons x xs ih =>
    simp only [sort_by_distance]
    rw [sort_insert_filter x _ d (sort_by_distance_pairwise xs)]
    by_cases hxd : x.distance = d <;> simp [List.filter_cons, hxd, ih]

/-! ### Bounds on parsed times: every successful parse is below 1440 -/

theorem strptime_I2_bounds {s : List Char} {p : Nat × List Char}
    (h : p ∈ strptime_I2 s) : 1 ≤ p.1 ∧ p.1 ≤ 12 := by
  match s with
  | [] => simp [strptime_I2] at h
  | [c] => simp [strptime_I2] at h
  | c1 :: c2 :: rest =>
    simp only [strptime_I2] at h
    split at h
    · rename_i hc
      have hp := List.mem_singleton.mp h
      subst hp
      refine ⟨?_, ?_⟩ <;> dsimp only <;> omega
    · split at h
      · rename_i hc
        have hp := List.mem_singleton.mp h
        subst hp
        refine ⟨?_, ?_⟩ <;> dsimp only <;> omega
      · simp at h

theorem strptime_I1_bounds {s : List Char} {p : Nat × List Char}
    (h : p ∈ strptime_I1 s) : 1 ≤ p.1 ∧ p.1 ≤ 12 := by
  match s with
  | [] => simp [strptime_I1] at h
  | c :: rest =>
    simp only [strptime_I1] at h
    split at h
    · rename_i hc
      have hp := List.mem_singleton.mp h
      subst hp
      refine ⟨?_, ?_⟩ <;> dsimp only <;> omega
    · simp at h

theorem strptime_I_bounds {s : List Char} {p : Nat × List Char}
    (h : p ∈ strptime_I s) : 1 ≤ p.1 ∧ p.1 ≤ 12 := by
  rcases List.mem_append.mp h with h' | h'
  · exact strptime_I2_bounds h'
  · exact strptime_I1_bounds h'

theorem strptime_M2_bounds {s : List Char} {p : Nat × List Char}
    (h : p ∈ strptime_M2 s) : p.1 ≤ 59 := by
  match s with
  | [] => simp [strptime_M2] at h
  | [c] => simp [strptime_M2] at h
  | a :: b :: rest =>
    simp only [strptime_M2, is_ascii_digit] at h
    split at h
    · rename_i hc
      have hp := List.mem_singleton.mp h
      subst hp
      dsimp only
      simp only [decide_eq_true_eq] at hc
      omega
    · simp at h

theorem strptime_M1_bounds {s : List Char} {p : Nat × List Char}
    (h : p ∈ strptime_M1 s) : p.1 ≤ 59 := by
  match s with
  | [] => simp [strptime_M1] at h
  | c :: rest =>
    simp only [strptime_M1, is_ascii_digit] at h
    split at h
    · rename_i hc
      have hp := List.mem_singleton.mp h
      subst hp
      dsimp only
      simp only [decide_eq_true_eq] at hc
      omega
    · simp at h

theorem strptime_M_bounds {s : List Char} {p : Nat × List Char}
    (h : p ∈ strptime_M s) : p.1 ≤ 59 := by
  rcases List.mem_append.mp h with h' | h'
  · exact strptime_M2_bounds h'
  · exact strptime_M1_bounds h'

theorem strptime_H2_bounds {s : List Char} {p : Nat × List Char}
    (h : p ∈ strptime_H2 s) : p.1 ≤ 23 := by
  match s with
  | [] => simp [strptime_H2] at h
  | [c] => simp [strptime_H2] at h
  | a :: b :: rest =>
    simp only [strptime_H2, is_ascii_digit] at h
    split at h
    · rename_i hc
      have hp := List.mem_singleton.mp h
      subst hp
      dsimp only
      omega
    · split at h
      · rename_i hc
        have hp := List.mem_singleton.mp h
        subst hp
        dsimp only
        simp only [decide_eq_true_eq] at hc
        omega
      · simp at h

theorem strptime_H_bounds {s : List Char} {p : Nat × List Char}
    (h : p ∈ strptime_H s) : p.1 ≤ 23 := by
  rcases List.mem_append.mp h with h' | h'
  · exact strptime_H2_bounds h'
  · have := strptime_M1_bounds h'
    -- the \d alternative yields a single digit, at most 9
    match s with
    | [] => simp [strptime_M1] at h'
    | c :: rest =>
      simp only [strptime_M1, is_ascii_digit] at h'
      split at h' <;> simp at h'
      rename_i hc
      simp only [decide_eq_true_eq] at hc
      obtain ⟨h1, h2⟩ := h'
      omega

theorem hour12_to_24_le {h : Nat} (h1 : 1 ≤ h) (h2 : h ≤ 12) (pm : Bool) :
    hour12_to_24 h pm ≤ 23 := by
  cases pm <;> simp only [hour12_to_24] <;> split <;> omega

theorem first_some_eq_some {l : List α} {f : α → Option β} {b : β}
    (h : first_some l f = some b) : ∃ a ∈ l, f a = some b := by
  induction l with
  | nil => simp [first_some] at h
  | cons a as ih =>
    simp only [first_some] at h
    cases hfa : f a with
    | some b' =>
      rw [hfa] at h
      exact ⟨a, List.mem_cons_self a as, by rw [hfa]; exact h⟩
    | none =>
      rw [hfa] at h
      obtain ⟨a', ha', hfa'⟩ := ih h
      exact ⟨a', List.mem_cons_of_mem a ha', hfa'⟩

theorem after_M_sp_lt {h : Nat} (h1 : 1 ≤ h) (h2 : h ≤ 12) {mr : Nat × List Char}
    (hm : mr.1 ≤ 59) {v : Nat} (hv : after_M_sp h mr = some v) : v < 1440 := by
  obtain ⟨mv, r3⟩ := mr
  simp only at hm
  cases hws : ws1 r3 with
  | none => simp [after_M_sp, hws] at hv
  | some r =>
    simp only [after_M_sp, hws] at hv
    cases hp : strptime_p r with
    | none => simp [hp] at hv
    | some pr =>
      obtain ⟨pm, rest⟩ := pr
      simp only [hp] at hv
      cases rest with
      | nil =>
        simp at hv
        have hb := hour12_to_24_le h1 h2 pm
        omega
      | cons hd tl => simp at hv

theorem after_M_nsp_lt {h : Nat} (h1 : 1 ≤ h) (h2 : h ≤ 12) {mr : Nat × List Char}
    (hm : mr.1 ≤ 59) {v : Nat} (hv : after_M_nsp h mr = some v) : v < 1440 := by
  obtain ⟨mv, r3⟩ := mr
  simp only at hm
  cases hp : strptime_p r3 with
  | none => simp [after_M_nsp, hp] at hv
  | some pr =>
    obtain ⟨pm, rest⟩ := pr
    simp only [after_M_nsp, hp] at hv
    cases rest with
    | nil =>
      simp at hv
      have hb := hour12_to_24_le h1 h2 pm
      omega
    | cons hd tl => simp at hv

theorem parse_I_M_sp_p_lt {s : List Char} {v : Nat}
    (h : parse_I_M_sp_p s = some v) : v < 1440 := by
  obtain ⟨hr, hmem, hcont⟩ := first_some_eq_some h
  obtain ⟨hb1, hb2⟩ := strptime_I_bounds hmem
  obtain ⟨hh, r1⟩ := hr
  simp only at hb1 hb2
  cases r1 with
  | nil => simp [after_I_sp] at hcont
  | cons c r2 =>
    simp only [after_I_sp] at hcont
    by_cases hc : c = ':'
    · rw [if_pos hc] at hcont
      obtain ⟨mr, hmm, hcont2⟩ := first_some_eq_some hcont
      exact after_M_sp_lt hb1 hb2 (strptime_M_bounds hmm) hcont2
    · rw [if_neg hc] at hcont; simp at hcont

theorem parse_I_M_p_lt {s : List Char} {v : Nat}
    (h : parse_I_M_p s = some v) : v < 1440 := by
  obtain ⟨hr, hmem, hcont⟩ := first_some_eq_some h
  obtain ⟨hb1, hb2⟩ := strptime_I_bounds hmem
  obtain ⟨hh, r1⟩ := hr
  simp only at hb1 hb2
  cases r1 with
  | nil => simp [after_I_nsp] at hcont
  | cons c r2 =>
    simp only [after_I_nsp] at hcont
    by_cases hc : c = ':'
    · rw [if_pos hc] at hcont
      obtain ⟨mr, hmm, hcont2⟩ := first_some_eq_some hcont
      exact after_M_nsp_lt hb1 hb2 (strptime_M_bounds hmm) hcont2
    · rw [if_neg hc] at hcont; simp at hcont

theorem parse_H_M_lt {s : List Char} {v : Nat}
    (h : parse_H_M s = some v) : v < 1440 := by
  obtain ⟨hr, hmem, hcont⟩ := first_some_eq_some h
  have hb := strptime_H_bounds hmem
  obtain ⟨hh, r1⟩ := hr
  simp only at hb
  cases r1 with
  | nil => simp [after_H_colon] at hcont
  | cons c r2 =>
    simp only [after_H_colon] at hcont
    by_cases hc : c = ':'
    · rw [if_pos hc] at hcont
      obtain ⟨mr, hmm, hcont2⟩ := first_some_eq_some hcont
      have hmb := strptime_M_bounds hmm
      obtain ⟨mv, r3⟩ := mr
      simp only at hmb
      cases r3 with
      | nil =>
        simp [after_H_M] at hcont2
        omega
      | cons hd tl => simp [after_H_M] at hcont2
    · rw [if_neg hc] at hcont; simp at hcont

/-- Every value parse_time returns is a valid minutes-since-midnight value. -/
theorem parse_time_lt {s : List Char} {v : Nat}
    (h : parse_time s = some v) : v < 1440 := by
  cases h1 : parse_I_M_sp_p (py_strip s) with
  | some m =>
    simp only [parse_time, h1] at h
    exact Option.some.inj h ▸ parse_I_M_sp_p_lt h1
  | none =>
    cases h2 : parse_I_M_p (py_strip s) with
    | some m =>
      simp only [parse_time, h1, h2] at h
      exact Option.some.inj h ▸ parse_I_M_p_lt h2
    | none =>
      cases h3 : parse_H_M (py_strip s) with
      | some m =>
        simp only [parse_time, h1, h2, h3] at h
        exact Option.some.inj h ▸ parse_H_M_lt h3
      | none =>
        simp only [parse_time, h1, h2, h3, stage4_parse] at h
        by_cases h4 : stage4_match (py_strip s) = true
        · rw [if_pos h4] at h; exact parse_I_M_sp_p_lt h
        · rw [if_neg h4] at h; simp at h

/-! ## Distance-rule comparison definitions -/

/-- The distance rule as the spec states it: the absolute offset from the
    target, with the sentinel only for unparsable times. -/
def claimed_distance (target_minutes : Nat) : Option Nat → Nat
  | some m => ((m : Int) - (target_minutes : Int)).natAbs
  | none => 9999

/-- The distance rule the code implements: the Python conditional
    expression is falsy both for None and for a parsed value of 0
    (midnight), so both get the sentinel. -/
def code_distance (target_minutes : Nat) : Option Nat → Nat
  | some m =>
    if m = 0 then 9999 else ((m : Int) - (target_minutes : Int)).natAbs
  | none => 9999

theorem mk_slot_time (t : Nat) (r : RawSlot) : (mk_slot t r).time = r.time := rfl

theorem mk_slot_distance_eq (t : Nat) (r : RawSlot) :
    (mk_slot t r).distance = code_distance t (parse_time (mk_slot t r).time) := by
  cases h : parse_time r.time <;>
    simp [mk_slot, code_distance, mk_slot_time, h]

/-! ## Claim theorems: time parsing, ranking, dates, scan errors -/

set_option maxHeartbeats 4000000 in
set_option maxRecDepth 4000 in
theorem roundtrip_hr : ∀ h : Nat, h < 24 → ∀ r : Nat, r < 60 →
    parse_time (format12 (60 * h + r)) = some (60 * h + r) := by decide

/-- C5: for every minute value m in [0, 1439], rendering m in the canonical
    12-hour form "H:MM AM/PM" and feeding the result to parse_time yields m
    again. -/
theorem c5_time_roundtrip (m : Nat) (hm : m < 1440) :
    parse_time (format12 m) = some m := by
  have h1 : m / 60 < 24 := by omega
  have h2 : m % 60 < 60 := by omega
  have h := roundtrip_hr (m / 60) h1 (m % 60) h2
  have hm60 : 60 * (m / 60) + m % 60 = m := by omega
  rwa [hm60] at h

theorem c5_time_roundtrip_witness :
    840 < 1440 ∧ parse_time (format12 840) = some 840 :=
  ⟨by decide, c5_time_roundtrip 840 (by decide)⟩

/-- C6: when today already falls on the target weekday, the next available
    date is never today itself; whenever the window is at least 7 days it
    is exactly 7 days ahead (and otherwise no date is returned at all). -/
theorem c6_today_excluded (today max_days_ahead target_weekday : Nat)
    (h : target_weekday = today % 7) :
    calculate_next_available_date target_weekday max_days_ahead today ≠ some today ∧
    (7 ≤ max_days_ahead →
      calculate_next_available_date target_weekday max_days_ahead today =
        some (today + 7)) := by
  subst h
  have h7 := days_until_target_self (today % 7)
  constructor
  · simp only [calculate_next_available_date, h7]
    split
    · simp
    · simp only [ne_eq, Option.some.injEq]
      omega
  · intro hN
    simp only [calculate_next_available_date, h7]
    rw [if_neg (by omega)]

theorem c6_today_excluded_witness :
    calculate_next_available_date 0 7 14 ≠ some 14 ∧
    (7 ≤ 7 → calculate_next_available_date 0 7 14 = some (14 + 7)) :=
  c6_today_excluded 14 7 0 (by decide)

/-- C7: the calculator returns None exactly when the computed days-ahead
    strictly exceeds the window; at equality it returns the date. -/
theorem c7_window_boundary (target_weekday max_days_ahead today : Nat) :
    (calculate_next_available_date target_weekday max_days_ahead today = none ↔
      days_until_target target_weekday (today % 7) > max_days_ahead) ∧
    (days_until_target target_weekday (today % 7) = max_days_ahead →
      calculate_next_available_date target_weekday max_days_ahead today =
        some (today + max_days_ahead)) := by
  constructor
  · constructor
    · intro hn
      by_contra hgt
      simp only [calculate_next_available_date, if_neg hgt] at hn
      exact Option.noConfusion hn
    · intro hgt
      simp only [calculate_next_available_date, if_pos hgt]
  · intro he
    simp only [calculate_next_available_date, he]
    rw [if_neg (by omega)]

theorem c7_window_boundary_witness :
    calculate_next_available_date 3 3 0 = some (0 + 3) :=
  (c7_window_boundary 3 3 0).2 (by decide)

/-- The concrete candidate list of the ranking-stability scenario: four
    discovered candidates whose distances from the 14:00 target are
    [5, 0, 3, 0] in discovery order. -/
def c3_example_raws : List RawSlot :=
  [⟨1, "2:05 PM".data⟩, ⟨2, "2:00 PM".data⟩, ⟨3, "2:03 PM".data⟩, ⟨4, "2:00 PM".data⟩]

/-- C3 counterexample: a candidate whose display time parses to exactly 0
    minutes ("12:00 AM") is assigned the sentinel 9999 rather than
    |0 - 840| = 840, so the claimed distance rule (sentinel only when
    unparsable) does not hold for every candidate. -/
theorem c3_counterexample :
    parse_time "12:00 AM".data = some 0 ∧
    (mk_slot 840 ⟨1, "12:00 AM".data⟩).distance = 9999 ∧
    claimed_distance 840 (parse_time "12:00 AM".data) = 840 ∧
    (9999 : Nat) ≠ 840 := by decide

/-- C3 amended: every candidate is assigned |minutes - target| except that
    the sentinel 9999 is used both when the time is unparsable and when it
    parses to exactly 0 minutes; the list is sorted ascending by distance
    by a stable sort (equal-distance candidates keep discovery order), and
    for discovery-order distances [5, 0, 3, 0] the two zero-distance
    entries come first in their original relative order. -/
theorem c3_ranking_stability :
    (∀ (t : Nat) (raws : List RawSlot),
      (find_tee_time_slots_on_tee_sheet t (.ok raws)).Pairwise
        (fun a b => a.distance ≤ b.distance) ∧
      (∀ d, (find_tee_time_slots_on_tee_sheet t (.ok raws)).filter
          (fun s => s.distance = d) =
        (raws.map (mk_slot t)).filter (fun s => s.distance = d)) ∧
      (find_tee_time_slots_on_tee_sheet t (.ok raws)).Perm
        (raws.map (mk_slot t)) ∧
      (∀ r, (mk_slot t r).distance = code_distance t (parse_time r.time))) ∧
    (c3_example_raws.map (fun r => (mk_slot 840 r).distance) = [5, 0, 3, 0] ∧
      (find_tee_time_slots_on_tee_sheet 840 (.ok c3_example_raws)).map
        (fun s => s.element) = [2, 4, 3, 1]) := by
  constructor
  · intro t raws
    refine ⟨sort_by_distance_pairwise _, fun d => sort_by_distance_filter _ d,
      sort_by_distance_perm _, fun r => ?_⟩
    have := mk_slot_distance_eq t r
    rwa [mk_slot_time] at this
  · exact ⟨by decide, by decide⟩

/-- The concrete candidate list of the unparsable-ordering counterexample:
    an unparsable candidate discovered before a candidate that parses to
    midnight. -/
def c4_cex_raws : List RawSlot :=
  [⟨0, "not a time".data⟩, ⟨1, "12:00 AM".data⟩]

/-- C4 counterexample: parse_time("not a time") is indeed None, but the
    unparsable candidate does NOT sort after every candidate whose time
    did parse: a parsed midnight candidate also carries distance 9999, and
    the stable sort leaves the earlier-discovered unparsable candidate
    (element 0) ahead of the parsed one (element 1). -/
theorem c4_counterexample :
    parse_time "not a time".data = none ∧
    parse_time "12:00 AM".data = some 0 ∧
    (find_tee_time_slots_on_tee_sheet 840 (.ok c4_cex_raws)).map
      (fun s => s.element) = [0, 1] := by decide

/-- C4 amended: parse_time("not a time") is None; an unparsable candidate
    is kept in the list with the sentinel distance 9999, and after sorting
    it appears after every candidate whose time parsed to a NONZERO minute
    value (a parsed-midnight candidate also carries the sentinel and ties
    are resolved by discovery order). -/
theorem c4_unparsable_kept (t : Nat) (ht : t ≤ 1439) (raws : List RawSlot) :
    parse_time "not a time".data = none ∧
    (find_tee_time_slots_on_tee_sheet t (.ok raws)).Perm
      (raws.map (mk_slot t)) ∧
    (∀ s ∈ find_tee_time_slots_on_tee_sheet t (.ok raws),
      parse_time s.time = none → s.distance = 9999) ∧
    (∀ i j : Fin (find_tee_time_slots_on_tee_sheet t (.ok raws)).length,
      ∀ m : Nat,
      parse_time ((find_tee_time_slots_on_tee_sheet t (.ok raws)).get i).time = none →
      parse_time ((find_tee_time_slots_on_tee_sheet t (.ok raws)).get j).time = some m →
      m ≠ 0 → (j : Nat) < (i : Nat)) := by
  have hperm : (find_tee_time_slots_on_tee_sheet t (.ok raws)).Perm
      (raws.map (mk_slot t)) := sort_by_distance_perm _
  have hdist : ∀ s ∈ find_tee_time_slots_on_tee_sheet t (.ok raws),
      s.distance = code_distance t (parse_time s.time) := by
    intro s hs
    have hs' := hperm.mem_iff.mp hs
    obtain ⟨r, _, rfl⟩ := List.mem_map.mp hs'
    exact mk_slot_distance_eq t r
  refine ⟨by decide, hperm, ?_, ?_⟩
  · intro s hs hnone
    rw [hdist s hs, hnone]
    rfl
  · intro i j m hi hj hm0
    have hsorted : (find_tee_time_slots_on_tee_sheet t (.ok raws)).Pairwise
        (fun a b => a.distance ≤ b.distance) := sort_by_distance_pairwise _
    have hgeti := hdist _ (List.get_mem _ i.1 i.2)
    have hgetj := hdist _ (List.get_mem _ j.1 j.2)
    rw [hi] at hgeti
    rw [hj] at hgetj
    have hdisti : ((find_tee_time_slots_on_tee_sheet t (.ok raws)).get i).distance =
        9999 := hgeti
    have hdistj : ((find_tee_time_slots_on_tee_sheet t (.ok raws)).get j).distance =
        ((m : Int) - (t : Int)).natAbs := by
      rw [hgetj]
      simp [code_distance, hm0]
    have hmlt : m < 1440 := parse_time_lt hj
    have hjlt : ((find_tee_time_slots_on_tee_sheet t (.ok raws)).get j).distance <
        9999 := by
      rw [hdistj]
      omega
    by_contra hcon
    push_neg at hcon
    rcases Nat.lt_or_ge (i : Nat) (j : Nat) with hij | hij
    · have := List.pairwise_iff_get.mp hsorted i j (by exact hij)
      omega
    · have hij' : (i : Nat) = (j : Nat) := by omega
      have : i = j := Fin.ext hij'
      subst this
      rw [hi] at hj
      exact Option.noConfusion hj

theorem c4_unparsable_kept_witness :
    (find_tee_time_slots_on_tee_sheet 840 (.ok c4_cex_raws)).Perm
      (c4_cex_raws.map (mk_slot 840)) ∧ (0 : Nat) < 1 :=
  ⟨(c4_unparsable_kept 840 (by decide) c4_cex_raws).2.1,
    (c4_unparsable_kept 840 (by decide)
        [⟨5, "2:05 PM".data⟩, ⟨6, "not a time".data⟩]).2.2.2
      ⟨1, by decide⟩ ⟨0, by decide⟩ 845 (by decide) (by decide) (by decide)⟩

/-- C9 counterexample: the value the scanner returns after a caught
    extraction exception is exactly the value of an exception-free scan
    that found zero candidates — the empty list ([] / None), so the two
    outcomes are not distinguishable in the reported result. -/
theorem c9_counterexample :
    find_tee_time_slots_on_tee_sheet 840 (.error .element_detached) =
      find_tee_time_slots_on_tee_sheet 840 (.ok []) ∧
    search_for_available_slots (.error .evaluation_failed) =
      search_for_available_slots (.ok none) := by decide

/-- C9 amended: an exception during slot extraction is caught (and logged)
    for that attempt rather than propagated, and the scanner then returns
    the same empty result ([] from the tee-sheet scanner, None from the
    slot search) as a clean zero-candidate scan; the two outcomes are
    distinguished only in the diagnostic log, not in the returned value. -/
theorem c9_scan_error_amended :
    (∀ (t : Nat) (e : ScanExc),
      find_tee_time_slots_on_tee_sheet t (.error e) = [] ∧
      find_tee_time_slots_on_tee_sheet t (.error e) =
        find_tee_time_slots_on_tee_sheet t (.ok [])) ∧
    (∀ e : ScanExc,
      search_for_available_slots (.error e) = none ∧
      search_for_available_slots (.error e) =
        search_for_available_slots (.ok none)) :=
  ⟨fun _ _ => ⟨rfl, rfl⟩, fun _ => ⟨rfl, rfl⟩⟩

/-- C10: a candidate whose display time parses to exactly 0 minutes since
    midnight ("12:00 AM") is assigned the unparsable sentinel 9999 instead
    of |0 - target|, because the Python distance expression treats the
    parsed value 0 as falsy, exactly like an absent value. -/
theorem c10_midnight_sentinel :
    parse_time "12:00 AM".data = some 0 ∧
    (∀ t e, (mk_slot t ⟨e, "12:00 AM".data⟩).distance = 9999) ∧
    (mk_slot 840 ⟨1, "12:00 AM".data⟩).distance = 9999 ∧
    claimed_distance 840 (some 0) = 840 := by
  have hp : parse_time "12:00 AM".data = some 0 := by decide
  refine ⟨hp, fun t e => ?_, by decide, by decide⟩
  simp [mk_slot, hp]

/-! ## Booking executor (booking.py, attempt_booking, lines 399-534)

The page interactions performed by attempt_booking are recorded as an
action trace; the page supplies the outcome of each DOM query the code
makes, including whether the fallible element evaluations raise.  The
screenshots in the trace carry the artifact names used by the source. -/

/-- Substring-prefix test used by the in/contains checks. -/
def is_pre_of : List Char → List Char → Bool
  | [], _ => true
  | _ :: _, [] => false
  | p :: ps, c :: cs => p = c && is_pre_of ps cs

/-- Python `sub in s` on character lists. -/
def contains_sub (pat : List Char) : List Char → Bool
  | [] => is_pre_of pat []
  | c :: cs => is_pre_of pat (c :: cs) || contains_sub pat cs

/-- The final-button text test (booking.py line 506):
    "book"/"reserve"/"submit" in the lowercased button text. -/
def is_booking_button_text (txt : List Char) : Bool :=
  contains_sub "book".data (txt.map ascii_lower) ||
  contains_sub "reserve".data (txt.map ascii_lower) ||
  contains_sub "submit".data (txt.map ascii_lower)

/-- Page interactions attempt_booking can perform. -/
inductive BookAction
  | screenshot (name : String)
  | highlight_form (form_id : Nat)
  | highlight_element (element : Nat)
  | check_connected (element : Nat)
  | submit_form_script (form_id : Nat)
  | click_element (element : Nat)
  | select_player_count (n : Nat)
  | fill_player_count (n : Nat)
  | click_final_button
  deriving DecidableEq

/-- The slot dict as attempt_booking consumes it: tee-sheet candidates
    carry a form_id key, booking-view candidates do not. -/
structure SlotInfo where
  element : Nat
  time : List Char
  form_id : Option Nat
  deriving DecidableEq

/-- Results of the DOM queries attempt_booking makes, including whether
    the fallible element evaluations raise. -/
structure BookingPage where
  element_connected_ok : Bool
  highlight_ok : Bool
  click_ok : Bool
  form_after : Bool
  player_selector : Option Bool
  submit_button_present : Bool
  form_button_texts : List (List Char)
  confirmation_present : Bool
  deriving DecidableEq

/-- The final-booking-button search (booking.py lines 500-508): a
    submit-typed control first, else the first button whose text carries a
    booking verb. -/
def find_book_button (page : BookingPage) : Bool :=
  page.submit_button_present || page.form_button_texts.any is_booking_button_text

/-- Lines 464-529: the shared flow after the form submission or element
    click — wait, screenshot, detect the booking form, optionally set the
    player count (live mode only), then locate and click the final booking
    button; a missing confirmation marker is only a logged warning, the
    result is true either way. -/
def booking_form_flow (page : BookingPage) (player_count : Nat) (dry_run : Bool)
    (acc : List BookAction) : Bool × List BookAction :=
  let acc2 := acc ++ [.screenshot "after_booking_action"]
  if page.form_after then
    let acc3 := acc2 ++
      (match page.player_selector with
       | some is_select =>
         (if !dry_run then
            [if is_select then BookAction.select_player_count player_count
             else BookAction.fill_player_count player_count]
          else []) ++ [.screenshot "player_count_set"]
       | none => [])
    if dry_run then (true, acc3)
    else if find_book_button page then
      (true, acc3 ++ [.click_final_button, .screenshot "booking_complete"])
    else (false, acc3)
  else (false, acc2)

/-- Model of attempt_booking (booking.py lines 399-534).  A candidate with
    a form_id is submitted by script (live) or highlighted (dry run,
    returning true immediately); an element candidate is connectivity-
    checked, then clicked (live) or highlighted (dry run, returning true
    immediately); a raise in those element evaluations is caught by the
    inner except and yields false.  Only live mode continues into
    booking_form_flow. -/
def attempt_booking (slot_info : SlotInfo) (page : BookingPage)
    (player_count : Nat) (dry_run : Bool) : Bool × List BookAction :=
  match slot_info.form_id with
  | some fid =>
    if dry_run then
      (true, [.screenshot "before_booking_attempt", .highlight_form fid,
        .screenshot "would_submit_form"])
    else
      booking_form_flow page player_count dry_run
        [.screenshot "before_booking_attempt", .submit_form_script fid,
          .screenshot "after_form_submit"]
  | none =>
    if page.element_connected_ok then
      if dry_run then
        if page.highlight_ok then
          (true, [.screenshot "before_booking_attempt",
            .check_connected slot_info.element,
            .highlight_element slot_info.element,
            .screenshot "would_click_element"])
        else
          (false, [.screenshot "before_booking_attempt",
            .check_connected slot_info.element])
      else
        if page.click_ok then
          booking_form_flow page player_count dry_run
            [.screenshot "before_booking_attempt",
              .check_connected slot_info.element,
              .click_element slot_info.element]
        else
          (false, [.screenshot "before_booking_attempt",
            .check_connected slot_info.element])
    else
      (false, [.screenshot "before_booking_attempt"])

/-- Actions that a dry run must never perform: the irreversible submits
    (script-level form submission, final-button click) together with the
    slot-element click and the player-count filling, which the code also
    reserves for live mode. -/
def dry_run_forbidden : BookAction → Bool
  | .submit_form_script _ => true
  | .click_final_button => true
  | .click_element _ => true
  | .select_player_count _ => true
  | .fill_player_count _ => true
  | _ => false

/-- Concrete page for the dry-run scenario: a booking form with a
    fillable player-count input and a submit button is present. -/
def c1_page : BookingPage :=
  { element_connected_ok := true, highlight_ok := true, click_ok := true,
    form_after := true, player_selector := some false,
    submit_button_present := true, form_button_texts := [],
    confirmation_present := true }

/-- Concrete tee-sheet candidate for the dry-run scenario. -/
def c1_slot : SlotInfo := { element := 7, time := "2:00 PM".data, form_id := some 3 }

/-- C1 counterexample: the claim says a dry run performs all discovery and
    form-filling steps short of the final submission, but the code returns
    right after the highlight: on a page where the live flow fills the
    player-count field, the dry-run trace contains no fill action at all
    (it never reaches the booking form). -/
theorem c1_counterexample :
    (attempt_booking c1_slot c1_page 4 false).2.contains
      (BookAction.fill_player_count 4) = true ∧
    (attempt_booking c1_slot c1_page 4 true).2.contains
      (BookAction.fill_player_count 4) = false ∧
    (attempt_booking c1_slot c1_page 4 true).2.contains
      (BookAction.screenshot "after_booking_action") = false ∧
    (attempt_booking c1_slot c1_page 4 true).1 = true := by decide

/-- C1 amended: with dry_run = true, attempt_booking never performs the
    script-level form submit, the final-button click, the slot-element
    click, or any player-count filling; it returns true exactly when it
    reaches the visual-marking step (a form candidate, or an element
    candidate whose connectivity check and highlight succeed), and in that
    case the trace contains the highlight of the form or element it would
    submit.  It does not proceed into the post-click form-detection and
    form-filling flow, which is live-mode only. -/
theorem c1_dry_run_amended (slot_info : SlotInfo) (page : BookingPage) (pc : Nat) :
    ((attempt_booking slot_info page pc true).2.all
      (fun a => !dry_run_forbidden a) = true) ∧
    ((attempt_booking slot_info page pc true).1 = true ↔
      (slot_info.form_id ≠ none ∨
        (page.element_connected_ok ∧ page.highlight_ok))) ∧
    ((attempt_booking slot_info page pc true).1 = true →
      (∃ fid, BookAction.highlight_form fid ∈
        (attempt_booking slot_info page pc true).2) ∨
      BookAction.highlight_element slot_info.element ∈
        (attempt_booking slot_info page pc true).2) := by
  cases hf : slot_info.form_id with
  | some fid =>
    refine ⟨by simp [attempt_booking, hf, dry_run_forbidden], ?_, ?_⟩
    · simp [attempt_booking, hf]
    · intro _
      exact Or.inl ⟨fid, by simp [attempt_booking, hf]⟩
  | none =>
    cases hc : page.element_connected_ok with
    | false =>
      refine ⟨by simp [attempt_booking, hf, hc, dry_run_forbidden], ?_, ?_⟩
      · simp [attempt_booking, hf, hc]
      · intro habs
        simp [attempt_booking, hf, hc] at habs
    | true =>
      cases hh : page.highlight_ok with
      | false =>
        refine ⟨by simp [attempt_booking, hf, hc, hh, dry_run_forbidden], ?_, ?_⟩
        · simp [attempt_booking, hf, hc, hh]
        · intro habs
          simp [attempt_booking, hf, hc, hh] at habs
      | true =>
        refine ⟨by simp [attempt_booking, hf, hc, hh, dry_run_forbidden], ?_, ?_⟩
        · simp [attempt_booking, hf, hc, hh]
        · intro _
          exact Or.inr (by simp [attempt_booking, hf, hc, hh])

theorem c1_dry_run_amended_witness :
    (attempt_booking c1_slot c1_page 4 true).1 = true ∧
    ((∃ fid, BookAction.highlight_form fid ∈
        (attempt_booking c1_slot c1_page 4 true).2) ∨
      BookAction.highlight_element c1_slot.element ∈
        (attempt_booking c1_slot c1_page 4 true).2) :=
  ⟨(c1_dry_run_amended c1_slot c1_page 4).2.1.mpr (by decide),
    (c1_dry_run_amended c1_slot c1_page 4).2.2
      ((c1_dry_run_amended c1_slot c1_page 4).2.1.mpr (by decide))⟩

/-! ## Retry orchestration (booking.py, book_tee_time, lines 850-952)

The loop body's collaborators are abstracted into an environment: the
per-attempt scan result, whether the navigation raises on an attempt, the
outcome of a booking attempt, whether the direct booking URL reaches the
TeeTimes view, and the tee-sheet form available for the dry-run simulated
slot.  Navigations and attempts are recorded as a trace. -/

/-- Orchestrator-level actions. -/
inductive RunAction
  | nav_tee_sheet
  | nav_booking_direct
  | nav_booking_ui
  | scan_slots
  | attempt_slot (simulated : Bool)
  | nav_root
  deriving DecidableEq

/-- Environment supplying the collaborators of book_tee_time. -/
structure OrchEnv where
  scan_result : Nat → List Slot
  nav_fails : Nat → Bool
  attempt_result : Nat → Bool
  booking_direct_ok : Bool
  sim_form : Option Nat
  sim_attempt_result : Bool

/-- Navigations performed by navigate_to_booking_page (booking.py lines
    86-227): the direct URL first; if it does not reach the TeeTimes view,
    the UI fallback starts from the tee sheet. -/
def navigate_to_booking_page_nav (env : OrchEnv) : List RunAction :=
  if env.booking_direct_ok then [.nav_booking_direct]
  else [.nav_booking_direct, .nav_tee_sheet, .nav_booking_ui]

/-- The body of `for attempt in range(max_retries + 1)` (booking.py lines
    874-950), recursing on the remaining iteration count with i the current
    attempt index.  Fuel 0 is loop exhaustion: the final `return False`
    (line 952).  A raise inside an iteration is caught; with attempts left
    the browser is sent to the root page, else the loop returns False.  An
    empty scan on the last attempt with dry_run synthesizes a simulated
    slot from a tee-sheet form when one exists; an empty scan with attempts
    left navigates to the booking page before the next iteration.  A found
    slot is attempted; success returns True, failure moves to the next
    iteration. -/
def book_tee_time_loop (env : OrchEnv) (dry_run : Bool) (max_retries : Nat) :
    Nat → Nat → Bool × List RunAction
  | 0, _ => (false, [])
  | fuel + 1, i =>
    if env.nav_fails i then
      if i < max_retries then
        (fun r => (r.1, RunAction.nav_tee_sheet :: RunAction.nav_root :: r.2))
          (book_tee_time_loop env dry_run max_retries fuel (i + 1))
      else (false, [.nav_tee_sheet])
    else
      match env.scan_result i with
      | [] =>
        if dry_run ∧ i = max_retries then
          match env.sim_form with
          | some _ =>
            (env.sim_attempt_result,
              [.nav_tee_sheet, .scan_slots, .attempt_slot true])
          | none => (false, [.nav_tee_sheet, .scan_slots])
        else if i < max_retries then
          (fun r => (r.1, RunAction.nav_tee_sheet :: RunAction.scan_slots ::
              (navigate_to_booking_page_nav env ++ r.2)))
            (book_tee_time_loop env dry_run max_retries fuel (i + 1))
        else (false, [.nav_tee_sheet, .scan_slots])
      | _ :: _ =>
        if env.attempt_result i then
          (true, [.nav_tee_sheet, .scan_slots, .attempt_slot false])
        else
          (fun r => (r.1, RunAction.nav_tee_sheet :: RunAction.scan_slots ::
              RunAction.attempt_slot false :: r.2))
            (book_tee_time_loop env dry_run max_retries fuel (i + 1))

/-- Model of book_tee_time (booking.py lines 850-952). -/
def book_tee_time (env : OrchEnv) (dry_run : Bool) (max_retries : Nat) :
    Bool × List RunAction :=
  book_tee_time_loop env dry_run max_retries (max_retries + 1) 0

/-- C2: with max_retries = 2, a scanner that always yields zero slots,
    dry-run disabled, navigation not raising and the direct booking URL
    working, book_tee_time runs exactly 3 attempts, navigates to the
    schedule view exactly 3 times (1 initial + 2 retries, with a
    booking-page navigation between attempts), and returns false. -/
theorem c2_retry_bound (env : OrchEnv)
    (hscan : ∀ i, env.scan_result i = [])
    (hnav : ∀ i, env.nav_fails i = false)
    (hdir : env.booking_direct_ok = true) :
    book_tee_time env false 2 =
      (false,
        [.nav_tee_sheet, .scan_slots, .nav_booking_direct,
         .nav_tee_sheet, .scan_slots, .nav_booking_direct,
         .nav_tee_sheet, .scan_slots]) ∧
    (book_tee_time env false 2).2.count RunAction.nav_tee_sheet = 3 ∧
    (book_tee_time env false 2).2.count RunAction.scan_slots = 3 ∧
    (book_tee_time env false 2).1 = false := by
  have htrace : book_tee_time env false 2 =
      (false,
        [.nav_tee_sheet, .scan_slots, .nav_booking_direct,
         .nav_tee_sheet, .scan_slots, .nav_booking_direct,
         .nav_tee_sheet, .scan_slots]) := by
    simp [book_tee_time, book_tee_time_loop, navigate_to_booking_page_nav,
      hscan, hnav, hdir]
  refine ⟨htrace, ?_, ?_, ?_⟩ <;> rw [htrace] <;> rfl

/-- Concrete environment for the retry-bound scenario. -/
def c2_env : OrchEnv :=
  { scan_result := fun _ => [], nav_fails := fun _ => false,
    attempt_result := fun _ => false, booking_direct_ok := true,
    sim_form := none, sim_attempt_result := false }

theorem c2_retry_bound_witness :
    (book_tee_time c2_env false 2).2.count RunAction.nav_tee_sheet = 3 ∧
    (book_tee_time c2_env false 2).1 = false :=
  ⟨(c2_retry_bound c2_env (fun _ => rfl) (fun _ => rfl) rfl).2.1,
    (c2_retry_bound c2_env (fun _ => rfl) (fun _ => rfl) rfl).2.2.2⟩

/-! ## Login success determination (src/functions/auth.py)

auth.py imports asyncio, playwright, logging and two project utilities —
and nothing else.  Line 82 nevertheless evaluates os.getenv, so for every
credential pair other than the test sentinel the post-submit check raises
NameError before the three-signal heuristic (lines 88-110) can run; the
inner except (line 125) catches it and the function returns the failure
triple (None, None, None). -/

/-- The page state the login checks consult. -/
structure LoginPage where
  url_contains_login : Bool
  logged_in_elements : Nat
  login_form_present : Bool
  checks_raise : Bool
  deriving DecidableEq

/-- Outcome of login_to_club_caddie: the page/browser triple or the
    failure triple (None, None, None). -/
inductive LoginOutcome
  | success
  | failure
  deriving DecidableEq

/-- The three-signal OR heuristic (auth.py lines 88-110): URL no longer
    contains "login", or — when the element queries do not raise — a
    logged-in-looking element exists or the login form fields are gone. -/
def login_success_heuristic (p : LoginPage) : Bool :=
  (!p.url_contains_login) ||
    (!p.checks_raise && (p.logged_in_elements > 0 || !p.login_form_present))

/-- A Python evaluation that either yields a value or raises. -/
inductive PyEval (α : Type)
  | ok (a : α)
  | raised

/-- Line 82: `os.getenv("TEATIME_TEST_RUN", ...)` — the module never
    imports os, so this name lookup raises NameError unconditionally. -/
def test_run_check : PyEval Bool := .raised

/-- Model of the post-submit portion of login_to_club_caddie (auth.py
    lines 76-123): the sentinel credential pair short-circuits to success
    (line 77); every other pair reaches line 82, whose NameError is caught
    by the enclosing except and turned into the failure triple; the
    lines below it — the test-run shortcut and the three-signal
    heuristic — are unreachable for real credentials. -/
def login_post_submit (username password : List Char) (p : LoginPage) :
    LoginOutcome :=
  if username = "test_user".data ∧ password = "test_password".data then
    .success
  else
    match test_run_check with
    | .raised => .failure
    | .ok true => .success
    | .ok false =>
      if login_success_heuristic p then .success else .failure

/-- C8: for non-sentinel credentials the code never reports success, even
    when the post-submit URL has left the login page (signal (a) of the
    claimed OR heuristic holds): the missing os import makes line 82 raise
    NameError for every non-sentinel pair, so login always returns the
    failure triple, contradicting the claimed three-signal determination
    (whose dead code is captured by login_success_heuristic). -/
theorem c8_login_code_bug :
    login_post_submit "alice".data "pw".data
      ⟨false, 3, false, false⟩ = .failure ∧
    login_success_heuristic ⟨false, 3, false, false⟩ = true ∧
    (∀ u p page, ¬(u = "test_user".data ∧ p = "test_password".data) →
      login_post_submit u p page = .failure) := by
  refine ⟨by decide, by decide, ?_⟩
  intro u p page hne
  simp only [login_post_submit, if_neg hne, test_run_check]

theorem c8_login_code_bug_witness :
    login_post_submit "bob".data "pw2".data ⟨true, 0, true, false⟩ = .failure :=
  c8_login_code_bug.2.2 "bob".data "pw2".data ⟨true, 0, true, false⟩ (by decide)

end TeaTime
